import Mathlib

/-!
Verification of the Permission Inspector (`analyze_file` in `a.py`).

The program is a single metadata-extraction function over the host
filesystem.  The host's side-effecting calls (`os.path.normpath`,
`os.path.exists`, `os.stat`, `os.path.isdir`, `pwd.getpwuid`,
`grp.getgrgid`, `datetime...strftime`) are modelled as an explicit
environment `FS` of oracle functions describing one consistent run:
`stat` is the fallible metadata read (`Except` models the exception that
the source catches), `getpwuid`/`getgrgid` return `none` when the Python
lookup raises, and `can_get_names` is the `CAN_GET_NAMES` module flag.
Everything after the environment is a faithful translation of the source.
-/

/-- The fields of `os.stat_result` that the source reads. -/
structure StatInfo where
  st_mode : Nat
  st_size : Nat
  st_uid : Nat
  st_gid : Nat
  st_mtime : Nat
deriving DecidableEq

/-- Host environment: one consistent snapshot of the platform calls the
source makes.  `stat` returns `.error msg` when `os.stat` raises an
exception whose `str` is `msg`. -/
structure FS where
  normpath : String → String
  path_exists : String → Bool
  stat : String → Except String StatInfo
  is_dir : String → Bool
  can_get_names : Bool
  getpwuid : Nat → Option String
  getgrgid : Nat → Option String
  format_mtime : Nat → String

/-- The success dictionary built by `analyze_file` (lines 38-90). -/
structure InspectionResult where
  path : String
  type : String
  size : Nat
  uid : Nat
  gid : Nat
  octal : String
  symbolic : String
  modified : String
  owner_name : String
  group_name : String
  owner_read : Bool
  owner_write : Bool
  owner_execute : Bool
  group_read : Bool
  group_write : Bool
  group_execute : Bool
  others_read : Bool
  others_write : Bool
  others_execute : Bool
  setuid : Bool
  setgid : Bool
  sticky : Bool
  warnings : List String
deriving DecidableEq

/-- Return value of `analyze_file`: either the results dictionary or an
error dictionary whose single entry is the `"error"` message; the two
shapes are distinguished by the `"error"` key. -/
inductive AnalyzeResult where
  | ok (result : InspectionResult)
  | error (msg : String)
deriving DecidableEq

/- Constants of Python's `stat` module. -/

def S_IRUSR : Nat := 0o400
def S_IWUSR : Nat := 0o200
def S_IXUSR : Nat := 0o100
def S_IRGRP : Nat := 0o40
def S_IWGRP : Nat := 0o20
def S_IXGRP : Nat := 0o10
def S_IROTH : Nat := 0o4
def S_IWOTH : Nat := 0o2
def S_IXOTH : Nat := 0o1
def S_ISUID : Nat := 0o4000
def S_ISGID : Nat := 0o2000
def S_ISVTX : Nat := 0o1000
def S_IFMT : Nat := 0o170000
def S_IFDIR : Nat := 0o040000
def S_IFCHR : Nat := 0o020000
def S_IFBLK : Nat := 0o060000
def S_IFREG : Nat := 0o100000
def S_IFIFO : Nat := 0o010000
def S_IFLNK : Nat := 0o120000
def S_IFSOCK : Nat := 0o140000

/-- Python `stat.S_IMODE`: the low 12 permission bits of the mode. -/
def S_IMODE (mode : Nat) : Nat := mode &&& 0o7777

/-- Python `oct(n)` for a nonnegative `n`: `"0o"` followed by the base-8
digits of `n`. -/
def pythonOct (n : Nat) : String := "0o" ++ (Nat.toDigits 8 n).asString

/-- File-type character of CPython's `_stat.filemode` (function
`filetype` in `Modules/_stat.c`). -/
def filetype_char (mode : Nat) : Char :=
  if mode &&& S_IFMT == S_IFREG then '-'
  else if mode &&& S_IFMT == S_IFDIR then 'd'
  else if mode &&& S_IFMT == S_IFCHR then 'c'
  else if mode &&& S_IFMT == S_IFBLK then 'b'
  else if mode &&& S_IFMT == S_IFIFO then 'p'
  else if mode &&& S_IFMT == S_IFLNK then 'l'
  else if mode &&& S_IFMT == S_IFSOCK then 's'
  else '?'

/-- CPython `stat.filemode`: the 10-character symbolic mode string
(function `fillmode` in CPython's `Modules/_stat.c`). -/
def filemode (mode : Nat) : String :=
  String.mk
    [ filetype_char mode,
      if mode &&& S_IRUSR != 0 then 'r' else '-',
      if mode &&& S_IWUSR != 0 then 'w' else '-',
      if mode &&& S_ISUID != 0 then (if mode &&& S_IXUSR != 0 then 's' else 'S')
        else (if mode &&& S_IXUSR != 0 then 'x' else '-'),
      if mode &&& S_IRGRP != 0 then 'r' else '-',
      if mode &&& S_IWGRP != 0 then 'w' else '-',
      if mode &&& S_ISGID != 0 then (if mode &&& S_IXGRP != 0 then 's' else 'S')
        else (if mode &&& S_IXGRP != 0 then 'x' else '-'),
      if mode &&& S_IROTH != 0 then 'r' else '-',
      if mode &&& S_IWOTH != 0 then 'w' else '-',
      if mode &&& S_ISVTX != 0 then (if mode &&& S_IXOTH != 0 then 't' else 'T')
        else (if mode &&& S_IXOTH != 0 then 'x' else '-') ]

/-- Python `str.strip()` with no argument: remove leading and trailing
whitespace (restricted to the ASCII whitespace of `Char.isWhitespace`). -/
def strip (s : String) : String :=
  String.mk (((s.data.dropWhile Char.isWhitespace).reverse.dropWhile
    Char.isWhitespace).reverse)

def warnWorld : String := "⚠️ Anyone can modify this file/directory!"
def warnSetuid : String := "⚠️ File runs with special owner privileges"
def warnUnsafeDir : String := "⚠️ Unsafe directory permissions detected!"

/-- Lines 34-90 of the source: everything after `os.stat` succeeded with
`info` for the normalized path `file_path`. -/
def buildResults (fs : FS) (file_path : String) (info : StatInfo) :
    InspectionResult :=
  let mode := info.st_mode
  let names : String × String :=
    if fs.can_get_names then
      match fs.getpwuid info.st_uid, fs.getgrgid info.st_gid with
      | some ow, some gr => (ow, gr)
      | _, _ => ("Unknown", "Unknown")
    else ("N/A (Windows)", "N/A (Windows)")
  { path := file_path
    type := if fs.is_dir file_path then "Directory" else "File"
    size := info.st_size
    uid := info.st_uid
    gid := info.st_gid
    octal := pythonOct (S_IMODE mode)
    symbolic := filemode mode
    modified := fs.format_mtime info.st_mtime
    owner_name := names.1
    group_name := names.2
    owner_read := mode &&& S_IRUSR != 0
    owner_write := mode &&& S_IWUSR != 0
    owner_execute := mode &&& S_IXUSR != 0
    group_read := mode &&& S_IRGRP != 0
    group_write := mode &&& S_IWGRP != 0
    group_execute := mode &&& S_IXGRP != 0
    others_read := mode &&& S_IROTH != 0
    others_write := mode &&& S_IWOTH != 0
    others_execute := mode &&& S_IXOTH != 0
    setuid := mode &&& S_ISUID != 0
    setgid := mode &&& S_ISGID != 0
    sticky := mode &&& S_ISVTX != 0
    warnings :=
      (if mode &&& S_IWOTH != 0 then [warnWorld] else []) ++
      (if mode &&& S_ISUID != 0 then [warnSetuid] else []) ++
      (if fs.is_dir file_path && (mode &&& S_IWOTH != 0) &&
          !(mode &&& S_ISVTX != 0) then [warnUnsafeDir] else []) }

/-- Function `analyze_file`, lines 21-95 of the source.  The `try`
block's only fallible operation under the model is `fs.stat`; its
`except` branch is line 95. -/
def analyze_file (fs : FS) (path0 : String) : AnalyzeResult :=
  let file_path := fs.normpath (strip path0)
  if fs.path_exists file_path = false then
    .error ("File not found: " ++ file_path)
  else
    match fs.stat file_path with
    | .ok info => .ok (buildResults fs file_path info)
    | .error e => .error ("Error analyzing file: " ++ e)

/- Concrete host environments used to witness the theorems. -/

def statDemoFile : StatInfo :=
  { st_mode := 0o100644, st_size := 5, st_uid := 1000, st_gid := 1000,
    st_mtime := 1700000000 }

def statDemoDir : StatInfo :=
  { st_mode := 0o040755, st_size := 4096, st_uid := 1000, st_gid := 1000,
    st_mtime := 1700000000 }

def fsDemo : FS :=
  { normpath := fun s => s
    path_exists := fun s => s == "/tmp/f" || s == "/tmp/d"
    stat := fun s =>
      if s == "/tmp/f" then .ok statDemoFile
      else if s == "/tmp/d" then .ok statDemoDir
      else .error "No such file or directory"
    is_dir := fun s => s == "/tmp/d"
    can_get_names := true
    getpwuid := fun u => if u == 1000 then some "alice" else none
    getgrgid := fun g => if g == 1000 then some "staff" else none
    format_mtime := fun _ => "2023-11-14 22:13:20" }

/-- Environment where the entry exists but the metadata read itself
fails (e.g. permission denied traversing a parent). -/
def fsCex : FS :=
  { normpath := fun s => s
    path_exists := fun s => s == "/secret"
    stat := fun _ => .error "Permission denied"
    is_dir := fun _ => false
    can_get_names := true
    getpwuid := fun _ => none
    getgrgid := fun _ => none
    format_mtime := fun _ => "" }

/- Definitions written from the spec's words, used to compare the two
mode encodings the source emits (claim about mutual consistency of the
numeric and symbolic mode strings). -/

/-- Decoder following the spec's words: the nine permission characters
obtained from the standard POSIX layout (three bits per subject ordered
read, write, execute, most-significant subject first) with the
conventional special-bit substitution rule on the execute positions. -/
def spec_perm_chars (m : Nat) : List Char :=
  [ if m.testBit 8 then 'r' else '-',
    if m.testBit 7 then 'w' else '-',
    if m.testBit 11 then (if m.testBit 6 then 's' else 'S')
      else (if m.testBit 6 then 'x' else '-'),
    if m.testBit 5 then 'r' else '-',
    if m.testBit 4 then 'w' else '-',
    if m.testBit 10 then (if m.testBit 3 then 's' else 'S')
      else (if m.testBit 3 then 'x' else '-'),
    if m.testBit 2 then 'r' else '-',
    if m.testBit 1 then 'w' else '-',
    if m.testBit 9 then (if m.testBit 0 then 't' else 'T')
      else (if m.testBit 0 then 'x' else '-') ]

/-- Numeric value of one base-8 digit character. -/
def specOctDigitVal (c : Char) : Nat := c.toNat - 48

/-- Decoder following the spec's words: the numeric value denoted by a
base-8 numeric mode string of the shape produced by Python's `oct`
(the two-character prefix followed by base-8 digits). -/
def spec_octal_value (s : String) : Nat :=
  (s.data.drop 2).foldl (fun a c => a * 8 + specOctDigitVal c) 0

/-- Number of base-8 digits of a number (at least one). -/
def octLen (n : Nat) : Nat :=
  if h : n < 8 then 1 else octLen (n / 8) + 1
decreasing_by
  exact Nat.div_lt_self (by omega) (by omega)

/-- Whether `pat` occurs as a contiguous run inside the second list. -/
def containsSub (pat : List Char) : List Char → Bool
  | [] => pat.isEmpty
  | c :: rest => pat.isPrefixOf (c :: rest) || containsSub pat rest

/-- Whether the string `pat` occurs inside `s`. -/
def strContains (s pat : String) : Bool := containsSub pat.data s.data

/-- Agreement of two results on every field other than the two
owner/group name fields. -/
def agreesExceptNames (r1 r2 : InspectionResult) : Prop :=
  r1.path = r2.path ∧ r1.type = r2.type ∧ r1.size = r2.size ∧
  r1.uid = r2.uid ∧ r1.gid = r2.gid ∧ r1.octal = r2.octal ∧
  r1.symbolic = r2.symbolic ∧ r1.modified = r2.modified ∧
  r1.owner_read = r2.owner_read ∧ r1.owner_write = r2.owner_write ∧
  r1.owner_execute = r2.owner_execute ∧ r1.group_read = r2.group_read ∧
  r1.group_write = r2.group_write ∧ r1.group_execute = r2.group_execute ∧
  r1.others_read = r2.others_read ∧ r1.others_write = r2.others_write ∧
  r1.others_execute = r2.others_execute ∧ r1.setuid = r2.setuid ∧
  r1.setgid = r2.setgid ∧ r1.sticky = r2.sticky ∧
  r1.warnings = r2.warnings

/- Helper lemmas. -/

/-- Testing one bit with a mask equals `Nat.testBit`. -/
theorem and_pow_bit (n i : Nat) : ((n &&& 2 ^ i) != 0) = n.testBit i := by
  rw [Nat.and_two_pow]
  cases h : n.testBit i
  · simp
  · simp [Nat.pow_eq_zero]

/-- Version of `and_pow_bit` taking the mask as a numeral. -/
theorem and_const_bit (n c i : Nat) (h : c = 2 ^ i) :
    ((n &&& c) != 0) = n.testBit i := by
  rw [h, and_pow_bit]

theorem S_IMODE_eq_mod (mode : Nat) : S_IMODE mode = mode % 2 ^ 12 := by
  show mode &&& 4095 = mode % 2 ^ 12
  rw [show (4095 : Nat) = 2 ^ 12 - 1 from by norm_num]
  exact Nat.and_pow_two_sub_one_eq_mod mode 12

theorem testBit_S_IMODE (mode i : Nat) (h : i < 12) :
    (S_IMODE mode).testBit i = mode.testBit i := by
  rw [S_IMODE_eq_mod, Nat.testBit_mod_two_pow]
  simp [h]

theorem digit_val_8 : ∀ m, m < 8 → specOctDigitVal (Nat.digitChar m) = m := by
  decide

/-- Folding the base-8 digit parser over the output of `Nat.toDigitsCore`
recovers the encoded number. -/
theorem toDigitsCore_foldl_oct (fuel : Nat) :
    ∀ (n : Nat) (ds : List Char) (a : Nat), 0 < fuel → n < 8 ^ fuel →
      (Nat.toDigitsCore 8 fuel n ds).foldl (fun x c => x * 8 + specOctDigitVal c) a
        = ds.foldl (fun x c => x * 8 + specOctDigitVal c)
            (a * 8 ^ octLen n + n) := by
  induction fuel with
  | zero => intro n ds a h; exact absurd h (lt_irrefl 0)
  | succ f ih =>
    intro n ds a _ hn
    simp only [Nat.toDigitsCore]
    by_cases h0 : n / 8 = 0
    · rw [if_pos h0]
      have hn8 : n < 8 := by omega
      have hlen : octLen n = 1 := by rw [octLen]; simp [hn8]
      simp only [List.foldl]
      rw [hlen, digit_val_8 (n % 8) (by omega), Nat.mod_eq_of_lt hn8, pow_one]
    · rw [if_neg h0]
      have hf : 0 < f := by
        rcases Nat.eq_zero_or_pos f with hf0 | hf0
        · subst hf0; simp at hn; omega
        · exact hf0
      have hn' : n / 8 < 8 ^ f := by
        have hp : 8 ^ (f + 1) = 8 ^ f * 8 := pow_succ 8 f
        omega
      rw [ih (n / 8) (Nat.digitChar (n % 8) :: ds) a hf hn']
      simp only [List.foldl]
      congr 1
      rw [digit_val_8 (n % 8) (by omega)]
      have hlen : octLen n = octLen (n / 8) + 1 := by
        rw [octLen]; simp [show ¬n < 8 by omega]
      rw [hlen, pow_succ, ← Nat.mul_assoc]
      generalize a * 8 ^ octLen (n / 8) = A
      omega

/-- Round-trip: the spec-side decoder applied to Python's `oct` output
recovers the number. -/
theorem parse_pythonOct (m : Nat) : spec_octal_value (pythonOct m) = m := by
  have h1 : (pythonOct m).data = '0' :: 'o' :: Nat.toDigits 8 m := rfl
  rw [spec_octal_value, h1]
  simp only [List.drop]
  rw [Nat.toDigits]
  have hm : m < 8 ^ (m + 1) :=
    calc m < 2 ^ m := Nat.lt_two_pow m
    _ ≤ 8 ^ m := Nat.pow_le_pow_left (by norm_num) m
    _ ≤ 8 ^ (m + 1) := Nat.pow_le_pow_right (by norm_num) (Nat.le_succ m)
  rw [toDigitsCore_foldl_oct (m + 1) m [] 0 (Nat.succ_pos m) hm]
  simp

/-- The nine permission characters of `stat.filemode` equal the
spec-side rendering of the low twelve bits of the mode. -/
theorem filemode_perm_tail (mode : Nat) :
    (filemode mode).data.drop 1 = spec_perm_chars (S_IMODE mode) := by
  have h : ∀ i, i < 12 → (S_IMODE mode).testBit i = ((mode &&& 2 ^ i) != 0) :=
    fun i hi => by rw [testBit_S_IMODE mode i hi, and_pow_bit]
  rw [spec_perm_chars]
  rw [h 8 (by norm_num), h 7 (by norm_num), h 11 (by norm_num),
      h 6 (by norm_num), h 5 (by norm_num), h 4 (by norm_num),
      h 10 (by norm_num), h 3 (by norm_num), h 2 (by norm_num),
      h 1 (by norm_num), h 9 (by norm_num), h 0 (by norm_num)]
  norm_num [filemode, S_IRUSR, S_IWUSR, S_IXUSR, S_IRGRP, S_IWGRP, S_IXGRP,
    S_IROTH, S_IWOTH, S_IXOTH, S_ISUID, S_ISGID, S_ISVTX, List.drop]

/-- A list occurs inside any list that ends with it. -/
theorem containsSub_append_self (pat pre : List Char) :
    containsSub pat (pre ++ pat) = true := by
  induction pre with
  | nil =>
    cases pat with
    | nil => rfl
    | cons c t =>
      show (List.isPrefixOf (c :: t) (c :: t) || containsSub (c :: t) t) = true
      rw [show List.isPrefixOf (c :: t) (c :: t) = true by
        simp [List.isPrefixOf_iff_prefix]]
      rfl
  | cons x xs ih =>
    show (List.isPrefixOf pat (x :: (xs ++ pat)) || containsSub pat (xs ++ pat)) = true
    rw [ih, Bool.or_true]

/- Claim theorems. -/

/-- C3: for every input string, a single call to `analyze_file` produces
exactly one of an `InspectionResult` or an `AnalysisError`, never both
and never neither. -/
theorem c3_exactly_one_outcome (fs : FS) (s : String) :
    Xor' (∃ r, analyze_file fs s = .ok r)
      (∃ m, analyze_file fs s = .error m) := by
  cases h : analyze_file fs s with
  | ok r =>
    exact Or.inl ⟨⟨r, rfl⟩, by
      rintro ⟨m, hm⟩
      exact AnalyzeResult.noConfusion hm⟩
  | error m =>
    exact Or.inr ⟨⟨m, rfl⟩, by
      rintro ⟨r, hr⟩
      exact AnalyzeResult.noConfusion hr⟩

/-- C4: when the normalized path does not refer to an existing entry,
the call returns the `AnalysisError` whose message is
`File not found: <path>` naming the normalized path, and no result
fields are produced. -/
theorem c4_not_found (fs : FS) (s : String)
    (hex : fs.path_exists (fs.normpath (strip s)) = false) :
    analyze_file fs s = .error ("File not found: " ++ fs.normpath (strip s)) := by
  simp [analyze_file, hex]

theorem c4_witness :
    analyze_file fsDemo " /nope " =
      .error ("File not found: " ++ fsDemo.normpath (strip " /nope ")) :=
  c4_not_found fsDemo " /nope " (by rfl)

/-- C5: the function is total on every input string, and any failure of
the metadata read after the existence check is caught and surfaced as an
`AnalysisError` whose message carries the underlying cause description. -/
theorem c5_no_unhandled_fault (fs : FS) (s e : String)
    (hex : fs.path_exists (fs.normpath (strip s)) = true)
    (hstat : fs.stat (fs.normpath (strip s)) = .error e) :
    analyze_file fs s = .error ("Error analyzing file: " ++ e)
    ∧ ∀ s', (∃ r, analyze_file fs s' = .ok r)
        ∨ (∃ m, analyze_file fs s' = .error m) := by
  refine ⟨by simp [analyze_file, hex, hstat], fun s' => ?_⟩
  cases h : analyze_file fs s' with
  | ok r => exact Or.inl ⟨r, rfl⟩
  | error m => exact Or.inr ⟨m, rfl⟩

theorem c5_witness :
    analyze_file fsCex "/secret" =
      .error ("Error analyzing file: " ++ "Permission denied")
    ∧ ∀ s', (∃ r, analyze_file fsCex s' = .ok r)
        ∨ (∃ m, analyze_file fsCex s' = .error m) :=
  c5_no_unhandled_fault fsCex "/secret" "Permission denied" (by rfl) (by rfl)

/-- C10: every successful analysis reports entry kind `File` whenever
the entry is not a directory (whatever other kind it has), and the only
entry kinds a result can carry are `File` and `Directory`. -/
theorem c10_kind_file_or_directory (fs : FS) (s : String) (r : InspectionResult)
    (hok : analyze_file fs s = .ok r) :
    (fs.is_dir (fs.normpath (strip s)) = false → r.type = "File")
    ∧ (r.type = "File" ∨ r.type = "Directory") := by
  simp only [analyze_file] at hok
  by_cases hpe : fs.path_exists (fs.normpath (strip s)) = false
  · rw [if_pos hpe] at hok
    exact AnalyzeResult.noConfusion hok
  · rw [if_neg hpe] at hok
    cases hstat : fs.stat (fs.normpath (strip s)) with
    | ok info =>
      rw [hstat] at hok
      injection hok with h
      subst h
      constructor
      · intro hd
        simp [buildResults, hd]
      · by_cases hd : fs.is_dir (fs.normpath (strip s)) <;>
          simp [buildResults, hd]
    | error m =>
      rw [hstat] at hok
      exact AnalyzeResult.noConfusion hok

theorem c10_witness :
    (buildResults fsDemo "/tmp/f" statDemoFile).type = "File"
    ∧ ((buildResults fsDemo "/tmp/f" statDemoFile).type = "File"
       ∨ (buildResults fsDemo "/tmp/f" statDemoFile).type = "Directory") :=
  ⟨(c10_kind_file_or_directory fsDemo "/tmp/f"
      (buildResults fsDemo "/tmp/f" statDemoFile) (by rfl)).1 (by rfl),
   (c10_kind_file_or_directory fsDemo "/tmp/f"
      (buildResults fsDemo "/tmp/f" statDemoFile) (by rfl)).2⟩

/-- C1: in every result for an existing path, the nine boolean
permission fields equal the corresponding bits of the entry's mode under
the standard POSIX layout, and the three special fields equal the
setuid, setgid and sticky bits. -/
theorem c1_permission_bits (fs : FS) (s : String) (info : StatInfo)
    (r : InspectionResult)
    (hstat : fs.stat (fs.normpath (strip s)) = .ok info)
    (hok : analyze_file fs s = .ok r) :
    r.owner_read = info.st_mode.testBit 8
    ∧ r.owner_write = info.st_mode.testBit 7
    ∧ r.owner_execute = info.st_mode.testBit 6
    ∧ r.group_read = info.st_mode.testBit 5
    ∧ r.group_write = info.st_mode.testBit 4
    ∧ r.group_execute = info.st_mode.testBit 3
    ∧ r.others_read = info.st_mode.testBit 2
    ∧ r.others_write = info.st_mode.testBit 1
    ∧ r.others_execute = info.st_mode.testBit 0
    ∧ r.setuid = info.st_mode.testBit 11
    ∧ r.setgid = info.st_mode.testBit 10
    ∧ r.sticky = info.st_mode.testBit 9 := by
  simp only [analyze_file] at hok
  by_cases hpe : fs.path_exists (fs.normpath (strip s)) = false
  · rw [if_pos hpe] at hok
    exact AnalyzeResult.noConfusion hok
  · rw [if_neg hpe, hstat] at hok
    injection hok with h
    subst h
    exact ⟨and_const_bit _ _ 8 (by rfl), and_const_bit _ _ 7 (by rfl),
      and_const_bit _ _ 6 (by rfl), and_const_bit _ _ 5 (by rfl),
      and_const_bit _ _ 4 (by rfl), and_const_bit _ _ 3 (by rfl),
      and_const_bit _ _ 2 (by rfl), and_const_bit _ _ 1 (by rfl),
      and_const_bit _ _ 0 (by rfl), and_const_bit _ _ 11 (by rfl),
      and_const_bit _ _ 10 (by rfl), and_const_bit _ _ 9 (by rfl)⟩

theorem c1_witness :
    (buildResults fsDemo "/tmp/f" statDemoFile).owner_read
        = statDemoFile.st_mode.testBit 8
    ∧ (buildResults fsDemo "/tmp/f" statDemoFile).owner_write
        = statDemoFile.st_mode.testBit 7
    ∧ (buildResults fsDemo "/tmp/f" statDemoFile).owner_execute
        = statDemoFile.st_mode.testBit 6
    ∧ (buildResults fsDemo "/tmp/f" statDemoFile).group_read
        = statDemoFile.st_mode.testBit 5
    ∧ (buildResults fsDemo "/tmp/f" statDemoFile).group_write
        = statDemoFile.st_mode.testBit 4
    ∧ (buildResults fsDemo "/tmp/f" statDemoFile).group_execute
        = statDemoFile.st_mode.testBit 3
    ∧ (buildResults fsDemo "/tmp/f" statDemoFile).others_read
        = statDemoFile.st_mode.testBit 2
    ∧ (buildResults fsDemo "/tmp/f" statDemoFile).others_write
        = statDemoFile.st_mode.testBit 1
    ∧ (buildResults fsDemo "/tmp/f" statDemoFile).others_execute
        = statDemoFile.st_mode.testBit 0
    ∧ (buildResults fsDemo "/tmp/f" statDemoFile).setuid
        = statDemoFile.st_mode.testBit 11
    ∧ (buildResults fsDemo "/tmp/f" statDemoFile).setgid
        = statDemoFile.st_mode.testBit 10
    ∧ (buildResults fsDemo "/tmp/f" statDemoFile).sticky
        = statDemoFile.st_mode.testBit 9 :=
  c1_permission_bits fsDemo "/tmp/f" statDemoFile
    (buildResults fsDemo "/tmp/f" statDemoFile) (by rfl) (by rfl)

/-- C2: the warnings sequence is exactly the pure function of the
decoded bits and the entry kind given by the three rules in fixed order;
consequently a non-directory with others-write and no setuid gets
exactly the world-writable warning, a directory with others-write and
sticky gets no unsafe-directory warning, and any setuid entry gets the
elevated-privilege warning. -/
theorem c2_warning_rules (fs : FS) (s : String) (info : StatInfo)
    (r : InspectionResult)
    (hstat : fs.stat (fs.normpath (strip s)) = .ok info)
    (hok : analyze_file fs s = .ok r) :
    r.warnings =
      (if r.others_write then [warnWorld] else []) ++
      (if r.setuid then [warnSetuid] else []) ++
      (if (r.type == "Directory") && r.others_write && !r.sticky
        then [warnUnsafeDir] else [])
    ∧ (r.type = "File" → r.others_write = true → r.setuid = false →
        r.warnings = [warnWorld])
    ∧ (r.type = "Directory" → r.others_write = true → r.sticky = true →
        warnUnsafeDir ∉ r.warnings)
    ∧ (r.setuid = true → warnSetuid ∈ r.warnings) := by
  simp only [analyze_file] at hok
  by_cases hpe : fs.path_exists (fs.normpath (strip s)) = false
  · rw [if_pos hpe] at hok
    exact AnalyzeResult.noConfusion hok
  · rw [if_neg hpe, hstat] at hok
    injection hok with h
    subst h
    cases hd : fs.is_dir (fs.normpath (strip s)) <;>
      cases how : (info.st_mode &&& S_IWOTH != 0) <;>
        cases hsu : (info.st_mode &&& S_ISUID != 0) <;>
          cases hst : (info.st_mode &&& S_ISVTX != 0) <;>
            simp [buildResults, hd, how, hsu, hst, warnWorld, warnSetuid,
              warnUnsafeDir]

theorem c2_witness :
    (buildResults fsDemo "/tmp/f" statDemoFile).warnings =
      (if (buildResults fsDemo "/tmp/f" statDemoFile).others_write
        then [warnWorld] else []) ++
      (if (buildResults fsDemo "/tmp/f" statDemoFile).setuid
        then [warnSetuid] else []) ++
      (if ((buildResults fsDemo "/tmp/f" statDemoFile).type == "Directory")
          && (buildResults fsDemo "/tmp/f" statDemoFile).others_write
          && !(buildResults fsDemo "/tmp/f" statDemoFile).sticky
        then [warnUnsafeDir] else [])
    ∧ ((buildResults fsDemo "/tmp/f" statDemoFile).type = "File" →
        (buildResults fsDemo "/tmp/f" statDemoFile).others_write = true →
        (buildResults fsDemo "/tmp/f" statDemoFile).setuid = false →
        (buildResults fsDemo "/tmp/f" statDemoFile).warnings = [warnWorld])
    ∧ ((buildResults fsDemo "/tmp/f" statDemoFile).type = "Directory" →
        (buildResults fsDemo "/tmp/f" statDemoFile).others_write = true →
        (buildResults fsDemo "/tmp/f" statDemoFile).sticky = true →
        warnUnsafeDir ∉ (buildResults fsDemo "/tmp/f" statDemoFile).warnings)
    ∧ ((buildResults fsDemo "/tmp/f" statDemoFile).setuid = true →
        warnSetuid ∈ (buildResults fsDemo "/tmp/f" statDemoFile).warnings) :=
  c2_warning_rules fsDemo "/tmp/f" statDemoFile
    (buildResults fsDemo "/tmp/f" statDemoFile) (by rfl) (by rfl)

/-- C6: when the metadata read succeeds, name-resolution failure never
turns the call into an `AnalysisError`; the two name fields are either
both the resolved names or both one of the explicit unavailable markers;
and changing the name-resolution capability or lookup outcomes leaves
every other field unchanged. -/
theorem c6_name_resolution (fs : FS) (s : String) (info : StatInfo)
    (hex : fs.path_exists (fs.normpath (strip s)) = true)
    (hstat : fs.stat (fs.normpath (strip s)) = .ok info) :
    ∃ r, analyze_file fs s = .ok r
      ∧ ((fs.can_get_names = true ∧ ∃ ow gr,
            fs.getpwuid info.st_uid = some ow
            ∧ fs.getgrgid info.st_gid = some gr
            ∧ r.owner_name = ow ∧ r.group_name = gr)
         ∨ (r.owner_name = "Unknown" ∧ r.group_name = "Unknown")
         ∨ (fs.can_get_names = false ∧ r.owner_name = "N/A (Windows)"
            ∧ r.group_name = "N/A (Windows)"))
      ∧ ∀ c pw gr, ∃ r2,
          analyze_file
            { fs with can_get_names := c, getpwuid := pw, getgrgid := gr } s
            = .ok r2
          ∧ agreesExceptNames r2 r := by
  refine ⟨buildResults fs (fs.normpath (strip s)) info,
    by simp [analyze_file, hex, hstat], ?_, ?_⟩
  · by_cases hc : fs.can_get_names = true
    · cases hp : fs.getpwuid info.st_uid with
      | none =>
        right; left
        constructor <;> simp [buildResults, hc, hp]
      | some ow =>
        cases hg : fs.getgrgid info.st_gid with
        | none =>
          right; left
          constructor <;> simp [buildResults, hc, hp, hg]
        | some gr =>
          left
          exact ⟨hc, ow, gr, rfl, rfl, by simp [buildResults, hc, hp, hg],
            by simp [buildResults, hc, hp, hg]⟩
    · right; right
      have hc' : fs.can_get_names = false := by
        cases hcc : fs.can_get_names
        · rfl
        · exact absurd hcc hc
      exact ⟨hc', by simp [buildResults, hc'], by simp [buildResults, hc']⟩
  · intro c pw gr
    refine ⟨buildResults
      { fs with can_get_names := c, getpwuid := pw, getgrgid := gr }
      (fs.normpath (strip s)) info, by simp [analyze_file, hex, hstat], ?_⟩
    exact ⟨rfl, rfl, rfl, rfl, rfl, rfl, rfl, rfl, rfl, rfl, rfl, rfl, rfl,
      rfl, rfl, rfl, rfl, rfl, rfl, rfl, rfl⟩

theorem c6_witness :
    ∃ r, analyze_file fsDemo "/tmp/f" = .ok r
      ∧ ((fsDemo.can_get_names = true ∧ ∃ ow gr,
            fsDemo.getpwuid statDemoFile.st_uid = some ow
            ∧ fsDemo.getgrgid statDemoFile.st_gid = some gr
            ∧ r.owner_name = ow ∧ r.group_name = gr)
         ∨ (r.owner_name = "Unknown" ∧ r.group_name = "Unknown")
         ∨ (fsDemo.can_get_names = false ∧ r.owner_name = "N/A (Windows)"
            ∧ r.group_name = "N/A (Windows)"))
      ∧ ∀ c pw gr, ∃ r2,
          analyze_file
            { fsDemo with can_get_names := c, getpwuid := pw, getgrgid := gr }
            "/tmp/f" = .ok r2
          ∧ agreesExceptNames r2 r :=
  c6_name_resolution fsDemo "/tmp/f" statDemoFile (by rfl) (by rfl)

/-- C8: over a consistent snapshot (the directory test agrees with the
type bits of the mode that `stat` returned), an existing regular file is
reported with entry kind `File` and an existing directory with entry
kind `Directory`. -/
theorem c8_regular_file_and_directory (fs : FS) (s : String) (info : StatInfo)
    (hex : fs.path_exists (fs.normpath (strip s)) = true)
    (hstat : fs.stat (fs.normpath (strip s)) = .ok info)
    (hcoh : fs.is_dir (fs.normpath (strip s))
      = (info.st_mode &&& S_IFMT == S_IFDIR)) :
    ((info.st_mode &&& S_IFMT == S_IFREG) = true →
      ∃ r, analyze_file fs s = .ok r ∧ r.type = "File")
    ∧ ((info.st_mode &&& S_IFMT == S_IFDIR) = true →
      ∃ r, analyze_file fs s = .ok r ∧ r.type = "Directory") := by
  constructor
  · intro hreg
    refine ⟨buildResults fs (fs.normpath (strip s)) info,
      by simp [analyze_file, hex, hstat], ?_⟩
    have hd : fs.is_dir (fs.normpath (strip s)) = false := by
      rw [hcoh]
      have hm : info.st_mode &&& S_IFMT = S_IFREG := by
        simpa using hreg
      rw [hm]
      decide
    simp [buildResults, hd]
  · intro hdir
    refine ⟨buildResults fs (fs.normpath (strip s)) info,
      by simp [analyze_file, hex, hstat], ?_⟩
    have hd : fs.is_dir (fs.normpath (strip s)) = true := by
      rw [hcoh]; exact hdir
    simp [buildResults, hd]

theorem c8_witness :
    (∃ r, analyze_file fsDemo "/tmp/d" = .ok r ∧ r.type = "Directory")
    ∧ (∃ r, analyze_file fsDemo "/tmp/f" = .ok r ∧ r.type = "File") :=
  ⟨(c8_regular_file_and_directory fsDemo "/tmp/d" statDemoDir
      (by rfl) (by rfl) (by rfl)).2 (by rfl),
   (c8_regular_file_and_directory fsDemo "/tmp/f" statDemoFile
      (by rfl) (by rfl) (by rfl)).1 (by rfl)⟩

/-- C7: the numeric and symbolic mode strings of every result decode
consistently from the same low twelve mode bits: the spec-side octal
decoder recovers exactly those bits from the numeric string, the nine
permission characters of the symbolic string are the spec-side POSIX
rendering (with the conventional s/S, s/S, t/T substitution) of those
same bits, and the conventional examples hold. -/
theorem c7_mode_encodings (fs : FS) (s : String) (info : StatInfo)
    (r : InspectionResult)
    (hstat : fs.stat (fs.normpath (strip s)) = .ok info)
    (hok : analyze_file fs s = .ok r) :
    spec_octal_value r.octal = S_IMODE info.st_mode
    ∧ r.symbolic.data.drop 1 = spec_perm_chars (S_IMODE info.st_mode)
    ∧ filemode (S_IFREG ||| 0o755) = "-rwxr-xr-x"
    ∧ filemode (S_IFREG ||| 0o644) = "-rw-r--r--"
    ∧ filemode (S_IFREG ||| 0o4755) = "-rwsr-xr-x"
    ∧ filemode (S_IFREG ||| 0o4644) = "-rwSr--r--"
    ∧ filemode (S_IFDIR ||| 0o2755) = "drwxr-sr-x"
    ∧ filemode (S_IFDIR ||| 0o1777) = "drwxrwxrwt"
    ∧ filemode (S_IFDIR ||| 0o1776) = "drwxrwxrwT"
    ∧ pythonOct 0o755 = "0o755" ∧ pythonOct 0o644 = "0o644" := by
  simp only [analyze_file] at hok
  by_cases hpe : fs.path_exists (fs.normpath (strip s)) = false
  · rw [if_pos hpe] at hok
    exact AnalyzeResult.noConfusion hok
  · rw [if_neg hpe, hstat] at hok
    injection hok with h
    subst h
    exact ⟨parse_pythonOct (S_IMODE info.st_mode),
      filemode_perm_tail info.st_mode, by rfl, by rfl, by rfl, by rfl,
      by rfl, by rfl, by rfl, by rfl, by rfl⟩

theorem c7_witness :
    spec_octal_value (buildResults fsDemo "/tmp/f" statDemoFile).octal
      = S_IMODE statDemoFile.st_mode
    ∧ (buildResults fsDemo "/tmp/f" statDemoFile).symbolic.data.drop 1
      = spec_perm_chars (S_IMODE statDemoFile.st_mode)
    ∧ filemode (S_IFREG ||| 0o755) = "-rwxr-xr-x"
    ∧ filemode (S_IFREG ||| 0o644) = "-rw-r--r--"
    ∧ filemode (S_IFREG ||| 0o4755) = "-rwsr-xr-x"
    ∧ filemode (S_IFREG ||| 0o4644) = "-rwSr--r--"
    ∧ filemode (S_IFDIR ||| 0o2755) = "drwxr-sr-x"
    ∧ filemode (S_IFDIR ||| 0o1777) = "drwxrwxrwt"
    ∧ filemode (S_IFDIR ||| 0o1776) = "drwxrwxrwT"
    ∧ pythonOct 0o755 = "0o755" ∧ pythonOct 0o644 = "0o644" :=
  c7_mode_encodings fsDemo "/tmp/f" statDemoFile
    (buildResults fsDemo "/tmp/f" statDemoFile) (by rfl) (by rfl)

/-- C9 counterexample: when the metadata read fails with a cause
description that does not mention the path, the returned error carries
only the message `Error analyzing file: <cause>`, which does not contain
the path (here the input needs no normalization, so the original and
the normalized path coincide).  The error therefore does not carry the
original path. -/
theorem c9_counterexample :
    analyze_file fsCex "/secret"
      = .error "Error analyzing file: Permission denied"
    ∧ strContains "Error analyzing file: Permission denied" "/secret"
      = false := by
  exact ⟨by rfl, by rfl⟩

/-- C9 amended: every `AnalysisError` carries a message; the not-found
message names the normalized path, and the metadata-failure message
carries the underlying cause description, but not necessarily the
path. -/
theorem c9_error_messages (fs : FS) (s : String) :
    (fs.path_exists (fs.normpath (strip s)) = false →
      analyze_file fs s
        = .error ("File not found: " ++ fs.normpath (strip s))
      ∧ strContains ("File not found: " ++ fs.normpath (strip s))
          (fs.normpath (strip s)) = true)
    ∧ (∀ e, fs.path_exists (fs.normpath (strip s)) = true →
        fs.stat (fs.normpath (strip s)) = .error e →
        analyze_file fs s = .error ("Error analyzing file: " ++ e)
        ∧ strContains ("Error analyzing file: " ++ e) e = true) := by
  constructor
  · intro hex
    refine ⟨by simp [analyze_file, hex], ?_⟩
    show containsSub (fs.normpath (strip s)).data
      ("File not found: " ++ fs.normpath (strip s)).data = true
    have hdata : ("File not found: " ++ fs.normpath (strip s)).data
        = "File not found: ".data ++ (fs.normpath (strip s)).data := rfl
    rw [hdata]
    exact containsSub_append_self _ _
  · intro e hex hstat
    refine ⟨by simp [analyze_file, hex, hstat], ?_⟩
    show containsSub e.data ("Error analyzing file: " ++ e).data = true
    have hdata : ("Error analyzing file: " ++ e).data
        = "Error analyzing file: ".data ++ e.data := rfl
    rw [hdata]
    exact containsSub_append_self _ _

theorem c9_witness :
    (analyze_file fsCex "/gone"
        = .error ("File not found: " ++ fsCex.normpath (strip "/gone"))
      ∧ strContains ("File not found: " ++ fsCex.normpath (strip "/gone"))
          (fsCex.normpath (strip "/gone")) = true)
    ∧ (analyze_file fsCex "/secret"
        = .error ("Error analyzing file: " ++ "Permission denied")
      ∧ strContains ("Error analyzing file: " ++ "Permission denied")
          "Permission denied" = true) :=
  ⟨(c9_error_messages fsCex "/gone").1 (by rfl),
   (c9_error_messages fsCex "/secret").2 "Permission denied"
      (by rfl) (by rfl)⟩

theorem c3_witness :
    Xor' (∃ r, analyze_file fsDemo "/tmp/f" = .ok r)
      (∃ m, analyze_file fsDemo "/tmp/f" = .error m) :=
  c3_exactly_one_outcome fsDemo "/tmp/f"
